import Mathlib

/-!
Verification of the ELD trip-planning backend (`trips` app).

The development shallowly embeds the HOS rules engine (`trips/hos_rules.py`),
the trip scheduler (`trips/scheduler.py`), the day-segmentation helpers and
the request-validation rule of `trips/serializers.py`.

Conventions of the embedding:
* Python floats carrying hours/miles are modelled as `ℚ` (all arithmetic in
  the source is exact on the values of interest: sums, differences, products
  and divisions by 55 or 60).
* `datetime` values threaded through the scheduler are modelled as rational
  hours on an absolute axis; the scheduler only ever adds durations to them.
  The day-segmentation helpers, which genuinely inspect calendar structure,
  use integer seconds with 86400-second days instead (microseconds are zero
  for every value reaching them in the claims considered).
* String fields that no claim inspects (human-readable locations, stop
  reasons, lat/lng) are elided from the records; the `note` field keeps the
  constant part of the source's format strings.
* The `while miles_to_drive > 0` loop of `create_trip_schedule` is embedded
  with an explicit iteration budget `fuel`; a run of the Python function that
  terminates corresponds to `some schedule` for every sufficiently large
  budget, and a non-terminating run yields `none` for every budget.
-/

namespace Eld

/-! ### HOS rules engine (`trips/hos_rules.py`) -/

/-- FMCSA HOS constants from `hos_rules.py`. -/
def MAX_DRIVING_HOURS : ℚ := 11

def MAX_DUTY_WINDOW_HOURS : ℚ := 14

def BREAK_REQUIRED_AFTER_HOURS : ℚ := 8

def BREAK_DURATION_MINUTES : ℚ := 30

def OFF_DUTY_RESET_HOURS : ℚ := 10

def CYCLE_LIMIT_HOURS : ℚ := 70

def FUEL_STOP_INTERVAL_MILES : ℚ := 1000

def FUEL_STOP_DURATION_MINUTES : ℚ := 30

def PICKUP_DURATION_MINUTES : ℚ := 60

def DROPOFF_DURATION_MINUTES : ℚ := 60

def AVG_SPEED_MPH : ℚ := 55

/-- `HOSState` dataclass of `hos_rules.py`. -/
structure HOSState where
  driving_hours_in_shift : ℚ := 0
  on_duty_hours_in_shift : ℚ := 0
  duty_window_hours : ℚ := 0
  driving_since_last_break : ℚ := 0
  cycle_hours_used : ℚ := 0
  shift_active : Bool := false
deriving DecidableEq, Repr

def HOSState.driving_hours_remaining (s : HOSState) : ℚ :=
  max 0 (MAX_DRIVING_HOURS - s.driving_hours_in_shift)

def HOSState.duty_window_remaining (s : HOSState) : ℚ :=
  max 0 (MAX_DUTY_WINDOW_HOURS - s.duty_window_hours)

def HOSState.cycle_hours_remaining (s : HOSState) : ℚ :=
  max 0 (CYCLE_LIMIT_HOURS - s.cycle_hours_used)

def HOSState.hours_until_break_required (s : HOSState) : ℚ :=
  max 0 (BREAK_REQUIRED_AFTER_HOURS - s.driving_since_last_break)

def HOSState.needs_30_min_break (s : HOSState) : Bool :=
  BREAK_REQUIRED_AFTER_HOURS ≤ s.driving_since_last_break

/-- `HOSState.get_max_continuous_driving_hours`: `max(0, min(limits))` where
`limits` lists the four remaining budgets in source order. -/
def HOSState.get_max_continuous_driving_hours (s : HOSState) : ℚ :=
  max 0 (min s.driving_hours_remaining
    (min s.duty_window_remaining
      (min s.cycle_hours_remaining s.hours_until_break_required)))

/-- `start_new_shift` of `hos_rules.py`. -/
def start_new_shift (state : HOSState) : HOSState :=
  { driving_hours_in_shift := 0
    on_duty_hours_in_shift := 0
    duty_window_hours := 0
    driving_since_last_break := 0
    cycle_hours_used := state.cycle_hours_used
    shift_active := true }

/-- `add_driving_time` of `hos_rules.py` (implicitly starts a shift first). -/
def add_driving_time (state₀ : HOSState) (hours : ℚ) : HOSState :=
  let state := if state₀.shift_active then state₀ else start_new_shift state₀
  { driving_hours_in_shift := state.driving_hours_in_shift + hours
    on_duty_hours_in_shift := state.on_duty_hours_in_shift + hours
    duty_window_hours := state.duty_window_hours + hours
    driving_since_last_break := state.driving_since_last_break + hours
    cycle_hours_used := state.cycle_hours_used + hours
    shift_active := true }

/-- `add_on_duty_time` of `hos_rules.py`. -/
def add_on_duty_time (state₀ : HOSState) (hours : ℚ) (counts_as_break : Bool) : HOSState :=
  let state := if state₀.shift_active then state₀ else start_new_shift state₀
  let new_driving_since_break :=
    if counts_as_break ∧ BREAK_DURATION_MINUTES / 60 ≤ hours then (0 : ℚ)
    else state.driving_since_last_break
  { driving_hours_in_shift := state.driving_hours_in_shift
    on_duty_hours_in_shift := state.on_duty_hours_in_shift + hours
    duty_window_hours := state.duty_window_hours + hours
    driving_since_last_break := new_driving_since_break
    cycle_hours_used := state.cycle_hours_used + hours
    shift_active := true }

/-- `add_off_duty_time` of `hos_rules.py`. -/
def add_off_duty_time (state : HOSState) (hours : ℚ) : HOSState :=
  if OFF_DUTY_RESET_HOURS ≤ hours then
    { driving_hours_in_shift := 0
      on_duty_hours_in_shift := 0
      duty_window_hours := 0
      driving_since_last_break := 0
      cycle_hours_used := state.cycle_hours_used
      shift_active := false }
  else
    { driving_hours_in_shift := state.driving_hours_in_shift
      on_duty_hours_in_shift := state.on_duty_hours_in_shift
      duty_window_hours := state.duty_window_hours + hours
      driving_since_last_break := 0
      cycle_hours_used := state.cycle_hours_used
      shift_active := state.shift_active }

/-! ### Trip scheduler (`trips/scheduler.py`) -/

inductive DutyStatus where
  | OFF_DUTY
  | SLEEPER_BERTH
  | DRIVING
  | ON_DUTY_NOT_DRIVING
deriving DecidableEq, Repr

inductive StopType where
  | PICKUP
  | DROPOFF
  | FUEL
  | REST_BREAK
  | OFF_DUTY
deriving DecidableEq, Repr

/-- `ScheduleEvent` dataclass; times are rational hours on an absolute axis
(the Python `datetime`s are produced purely by adding durations to the trip
start).  Human-readable `location` strings are elided. -/
structure ScheduleEvent where
  start_time : ℚ
  end_time : ℚ
  status : DutyStatus
  note : String := ""
  miles_start : ℚ := 0
  miles_end : ℚ := 0
deriving DecidableEq, Repr

def ScheduleEvent.duration_hours (e : ScheduleEvent) : ℚ :=
  e.end_time - e.start_time

def ScheduleEvent.duration_minutes (e : ScheduleEvent) : ℚ :=
  (e.end_time - e.start_time) * 60

/-- `Stop` dataclass; `location`, `lat`, `lng`, `reason` elided. -/
structure Stop where
  stop_type : StopType
  duration_minutes : ℚ
  mile_marker : ℚ := 0
deriving DecidableEq, Repr

/-- `TripSchedule` dataclass.  The optional `start_time`/`end_time` of the
source are set unconditionally by `create_trip_schedule`, so they are plain
fields here (`end_time` starts at 0 and is overwritten at the end). -/
structure TripSchedule where
  events : List ScheduleEvent := []
  stops : List Stop := []
  total_driving_hours : ℚ := 0
  total_on_duty_hours : ℚ := 0
  total_off_duty_hours : ℚ := 0
  total_miles : ℚ := 0
  start_time : ℚ := 0
  end_time : ℚ := 0
deriving DecidableEq, Repr

/-- Python's `%` on floats with a positive divisor (floored remainder),
used for `current_miles % FUEL_STOP_INTERVAL_MILES`. -/
def fmod (a b : ℚ) : ℚ := a - b * ⌊a / b⌋

/-- `_add_pickup_stop`: appends the on-duty event and the `PICKUP` stop,
advances the clock by 60 minutes and applies `add_on_duty_time` with
`counts_as_break=True`. -/
def add_pickup_stop (schedule : TripSchedule) (current_time : ℚ) (hos_state : HOSState)
    (current_miles : ℚ) : TripSchedule × ℚ × HOSState :=
  let duration_hours := PICKUP_DURATION_MINUTES / 60
  let end_time := current_time + duration_hours
  let schedule :=
    { schedule with
      events := schedule.events ++
        [{ start_time := current_time, end_time := end_time,
           status := DutyStatus.ON_DUTY_NOT_DRIVING, note := "Pickup - Loading",
           miles_start := current_miles, miles_end := current_miles }]
      stops := schedule.stops ++
        [{ stop_type := StopType.PICKUP, duration_minutes := PICKUP_DURATION_MINUTES,
           mile_marker := current_miles }]
      total_on_duty_hours := schedule.total_on_duty_hours + duration_hours }
  (schedule, end_time, add_on_duty_time hos_state duration_hours true)

/-- `_add_dropoff_stop`. -/
def add_dropoff_stop (schedule : TripSchedule) (current_time : ℚ) (hos_state : HOSState)
    (current_miles : ℚ) : TripSchedule × ℚ × HOSState :=
  let duration_hours := DROPOFF_DURATION_MINUTES / 60
  let end_time := current_time + duration_hours
  let schedule :=
    { schedule with
      events := schedule.events ++
        [{ start_time := current_time, end_time := end_time,
           status := DutyStatus.ON_DUTY_NOT_DRIVING, note := "Dropoff - Unloading",
           miles_start := current_miles, miles_end := current_miles }]
      stops := schedule.stops ++
        [{ stop_type := StopType.DROPOFF, duration_minutes := DROPOFF_DURATION_MINUTES,
           mile_marker := current_miles }]
      total_on_duty_hours := schedule.total_on_duty_hours + duration_hours }
  (schedule, end_time, add_on_duty_time hos_state duration_hours true)

/-- `_add_fuel_stop`. -/
def add_fuel_stop (schedule : TripSchedule) (current_time : ℚ) (hos_state : HOSState)
    (current_miles : ℚ) : TripSchedule × ℚ × HOSState :=
  let duration_hours := FUEL_STOP_DURATION_MINUTES / 60
  let end_time := current_time + duration_hours
  let schedule :=
    { schedule with
      events := schedule.events ++
        [{ start_time := current_time, end_time := end_time,
           status := DutyStatus.ON_DUTY_NOT_DRIVING, note := "Fuel Stop",
           miles_start := current_miles, miles_end := current_miles }]
      stops := schedule.stops ++
        [{ stop_type := StopType.FUEL, duration_minutes := FUEL_STOP_DURATION_MINUTES,
           mile_marker := current_miles }]
      total_on_duty_hours := schedule.total_on_duty_hours + duration_hours }
  (schedule, end_time, add_on_duty_time hos_state duration_hours true)

/-- `_add_rest_break`. -/
def add_rest_break (schedule : TripSchedule) (current_time : ℚ) (hos_state : HOSState)
    (current_miles : ℚ) : TripSchedule × ℚ × HOSState :=
  let duration_hours := BREAK_DURATION_MINUTES / 60
  let end_time := current_time + duration_hours
  let schedule :=
    { schedule with
      events := schedule.events ++
        [{ start_time := current_time, end_time := end_time,
           status := DutyStatus.OFF_DUTY, note := "30-min Rest Break (8hr rule)",
           miles_start := current_miles, miles_end := current_miles }]
      stops := schedule.stops ++
        [{ stop_type := StopType.REST_BREAK, duration_minutes := BREAK_DURATION_MINUTES,
           mile_marker := current_miles }]
      total_off_duty_hours := schedule.total_off_duty_hours + duration_hours }
  (schedule, end_time, add_off_duty_time hos_state duration_hours)

/-- `_add_off_duty_reset` (the Python stop stores `int(10 * 60) = 600`). -/
def add_off_duty_reset (schedule : TripSchedule) (current_time : ℚ) (hos_state : HOSState)
    (current_miles : ℚ) : TripSchedule × ℚ × HOSState :=
  let duration_hours := OFF_DUTY_RESET_HOURS
  let end_time := current_time + duration_hours
  let schedule :=
    { schedule with
      events := schedule.events ++
        [{ start_time := current_time, end_time := end_time,
           status := DutyStatus.OFF_DUTY, note := "10-hr Off Duty (Shift Reset)",
           miles_start := current_miles, miles_end := current_miles }]
      stops := schedule.stops ++
        [{ stop_type := StopType.OFF_DUTY, duration_minutes := duration_hours * 60,
           mile_marker := current_miles }]
      total_off_duty_hours := schedule.total_off_duty_hours + duration_hours }
  (schedule, end_time, add_off_duty_time hos_state duration_hours)

/-- Mutable state of the `while miles_to_drive > 0` loop inside
`create_trip_schedule` (the write-only local `leg_miles_driven` is elided). -/
structure LoopState where
  miles_to_drive : ℚ
  current_miles : ℚ
  current_time : ℚ
  hos_state : HOSState
  schedule : TripSchedule
deriving DecidableEq, Repr

/-- One iteration of the drive loop of `create_trip_schedule` (source lines
156-237).  Every iteration of the Python loop falls through to the next test
of `miles_to_drive > 0`, so the body is a total state transformer; `end_name`
is the `end_name` entry of `leg_data`. -/
def driveBody (end_name : String) (st : LoopState) : LoopState :=
  let miles_since_last_fuel := fmod st.current_miles FUEL_STOP_INTERVAL_MILES
  let miles_to_next_fuel₀ := FUEL_STOP_INTERVAL_MILES - miles_since_last_fuel
  let miles_to_next_fuel :=
    if miles_to_next_fuel₀ ≤ 0 then FUEL_STOP_INTERVAL_MILES else miles_to_next_fuel₀
  let max_driving_hours := st.hos_state.get_max_continuous_driving_hours
  let max_miles_hos := max_driving_hours * AVG_SPEED_MPH
  let miles_this_segment := min st.miles_to_drive (min max_miles_hos miles_to_next_fuel)
  if miles_this_segment ≤ 0 then
    -- cannot drive: insert exactly one compliance action and retry
    if st.hos_state.needs_30_min_break then
      let r := add_rest_break st.schedule st.current_time st.hos_state st.current_miles
      { st with schedule := r.1, current_time := r.2.1, hos_state := r.2.2 }
    else if st.hos_state.duty_window_remaining ≤ 0 ∨
        st.hos_state.driving_hours_remaining ≤ 0 then
      let r := add_off_duty_reset st.schedule st.current_time st.hos_state st.current_miles
      { st with schedule := r.1, current_time := r.2.1, hos_state := r.2.2 }
    else if st.hos_state.cycle_hours_remaining ≤ 0 then
      let r := add_off_duty_reset st.schedule st.current_time st.hos_state st.current_miles
      { st with schedule := r.1, current_time := r.2.1, hos_state := r.2.2 }
    else
      st
  else
    let driving_hours := miles_this_segment / AVG_SPEED_MPH
    let end_time := st.current_time + driving_hours
    let schedule :=
      { st.schedule with
        events := st.schedule.events ++
          [{ start_time := st.current_time, end_time := end_time,
             status := DutyStatus.DRIVING, note := "Driving to " ++ end_name,
             miles_start := st.current_miles,
             miles_end := st.current_miles + miles_this_segment }]
        total_driving_hours := st.schedule.total_driving_hours + driving_hours
        total_on_duty_hours := st.schedule.total_on_duty_hours + driving_hours }
    let hos_state := add_driving_time st.hos_state driving_hours
    let current_miles := st.current_miles + miles_this_segment
    let miles_to_drive := st.miles_to_drive - miles_this_segment
    let st' : LoopState :=
      { miles_to_drive := miles_to_drive, current_miles := current_miles,
        current_time := end_time, hos_state := hos_state, schedule := schedule }
    let st' :=
      if fmod st'.current_miles FUEL_STOP_INTERVAL_MILES < miles_this_segment ∧
          0 < st'.miles_to_drive then
        let r := add_fuel_stop st'.schedule st'.current_time st'.hos_state st'.current_miles
        { st' with schedule := r.1, current_time := r.2.1, hos_state := r.2.2 }
      else st'
    let st' :=
      if st'.hos_state.needs_30_min_break ∧ 0 < st'.miles_to_drive then
        let r := add_rest_break st'.schedule st'.current_time st'.hos_state st'.current_miles
        { st' with schedule := r.1, current_time := r.2.1, hos_state := r.2.2 }
      else st'
    let st' :=
      if (st'.hos_state.duty_window_remaining ≤ 0 ∨
            st'.hos_state.driving_hours_remaining ≤ 0) ∧ 0 < st'.miles_to_drive then
        let r := add_off_duty_reset st'.schedule st'.current_time st'.hos_state st'.current_miles
        { st' with schedule := r.1, current_time := r.2.1, hos_state := r.2.2 }
      else st'
    st'

/-- The `while miles_to_drive > 0` loop with an explicit iteration budget.
`none` means the budget was exhausted with distance still remaining. -/
def driveLoop (end_name : String) : ℕ → LoopState → Option LoopState
  | fuel, st =>
    if st.miles_to_drive ≤ 0 then some st
    else match fuel with
      | 0 => none
      | fuel' + 1 => driveLoop end_name fuel' (driveBody end_name st)

/-- `create_trip_schedule` (scheduler.py lines 96-254) on the data the claims
depend on: the two leg distances, `cycle_used_hours` and an explicit
`start_time`.  `fuel` bounds the iterations of each leg's drive loop. -/
def create_trip_schedule (fuel : ℕ) (leg1_miles leg2_miles : ℚ)
    (cycle_used_hours : ℚ) (start_time : ℚ) : Option TripSchedule :=
  let schedule : TripSchedule := { start_time := start_time }
  let hos_state : HOSState := { cycle_hours_used := cycle_used_hours, shift_active := false }
  let hos_state := start_new_shift hos_state
  match driveLoop "Pickup" fuel
      { miles_to_drive := leg1_miles, current_miles := 0, current_time := start_time,
        hos_state := hos_state, schedule := schedule } with
  | none => none
  | some st₁ =>
    let r₁ := add_pickup_stop st₁.schedule st₁.current_time st₁.hos_state st₁.current_miles
    match driveLoop "Dropoff" fuel
        { miles_to_drive := leg2_miles, current_miles := st₁.current_miles,
          current_time := r₁.2.1, hos_state := r₁.2.2, schedule := r₁.1 } with
    | none => none
    | some st₂ =>
      let r₂ := add_dropoff_stop st₂.schedule st₂.current_time st₂.hos_state st₂.current_miles
      some { r₂.1 with total_miles := st₂.current_miles, end_time := r₂.2.1 }

/-! ### Day segmentation (`get_schedule_by_day`, scheduler.py lines 441-483)

Times here are integer seconds on an absolute axis with 86400-second days
(the naive local `datetime`s of the source at second granularity; every
value reaching this code in the claims has zero microseconds). -/

/-- A `ScheduleEvent` as seen by the day-segmentation code. -/
structure DayEvent where
  start_time : ℕ
  end_time : ℕ
  status : DutyStatus
  note : String := ""
  miles_start : ℚ := 0
  miles_end : ℚ := 0
deriving DecidableEq, Repr

/-- The `while current_start < event_end` loop of `get_schedule_by_day` for a
single event: `day_key` is `current_start.strftime("%Y-%m-%d")` (the day
index), `day_end` is `current_start.replace(hour=23, minute=59, second=59)`,
and the next `current_start` is the following midnight.  Each emitted pair is
`(day_key, day_event)`; `fuel` bounds the iterations. -/
def daySplitGo (event : DayEvent) : ℕ → ℕ → List (ℕ × DayEvent)
  | 0, _ => []
  | fuel + 1, current_start =>
    if current_start < event.end_time then
      let day_key := current_start / 86400
      let day_end := current_start / 86400 * 86400 + (23 * 3600 + 59 * 60 + 59)
      let segment_end := min day_end event.end_time
      (day_key,
        { start_time := current_start, end_time := segment_end,
          status := event.status, note := event.note,
          miles_start := event.miles_start, miles_end := event.miles_end }) ::
        daySplitGo event fuel ((current_start / 86400 + 1) * 86400)
    else []

/-- Day-keyed sub-events produced for one `ScheduleEvent` by
`get_schedule_by_day`. -/
def get_schedule_by_day_event (fuel : ℕ) (event : DayEvent) : List (ℕ × DayEvent) :=
  daySplitGo event fuel event.start_time

/-! ### Request validation (`trips/serializers.py`)

`PlanTripRequestSerializer` declares
`cycleUsedHours = serializers.FloatField(min_value=0, max_value=70, default=0)`;
a `FloatField` with these bounds accepts exactly the values in `[0, 70]`. -/

/-- Whether `PlanTripRequestSerializer` accepts a `cycleUsedHours` value. -/
def cycleUsedHours_valid (q : ℚ) : Bool :=
  decide (0 ≤ q) && decide (q ≤ 70)

/-- A location field of the request body as `LocationSerializer` sees it:
optional `lat`/`lng` floats and an optional address string (blank allowed,
`data.get("address")` treats a blank as absent). -/
structure LocationInput where
  lat : Option ℚ := none
  lng : Option ℚ := none
  address : String := ""
deriving DecidableEq, Repr

/-- `LocationSerializer.validate` (serializers.py lines 14-23): a location is
accepted when both coordinates are present or the address is non-blank. -/
def locationValid (l : LocationInput) : Bool :=
  (l.lat.isSome && l.lng.isSome) || decide (l.address ≠ "")

/-- A `plan_trip` request body.  Each waypoint is optional because a request
may omit it; `PlanTripRequestSerializer` declares `current`, `pickup` and
`dropoff` as required nested `LocationSerializer`s, so an absent waypoint
fails validation. -/
structure PlanTripRequest where
  current : Option LocationInput := none
  pickup : Option LocationInput := none
  dropoff : Option LocationInput := none
  cycleUsedHours : ℚ := 0
deriving DecidableEq, Repr

/-- `PlanTripRequestSerializer.is_valid()`: every waypoint is present and
individually valid and `cycleUsedHours` lies in `[0, 70]`. -/
def requestValid (r : PlanTripRequest) : Bool :=
  (match r.current with | some l => locationValid l | none => false) &&
  (match r.pickup with | some l => locationValid l | none => false) &&
  (match r.dropoff with | some l => locationValid l | none => false) &&
  cycleUsedHours_valid r.cycleUsedHours

/-- The gate of the `plan_trip` view (views.py lines 55-90) on the data the
claims depend on: an invalid request is answered with HTTP 400 from the
serializer, and an absent route (`calculate_route` returning `None`) with a
400 error in the view, both before `create_trip_schedule` runs; the route's
two leg distances are otherwise passed through to the scheduler unvalidated.
`Except.error` is the 400 response; inside `Except.ok`, `none` only marks an
exhausted drive-loop iteration budget. -/
def plan_trip (fuel : ℕ) (r : PlanTripRequest) (route : Option (ℚ × ℚ))
    (start_time : ℚ) : Except String (Option TripSchedule) :=
  if requestValid r = false then Except.error "400: invalid request"
  else match route with
    | none => Except.error "400: unable to calculate route"
    | some legs =>
        Except.ok (create_trip_schedule fuel legs.1 legs.2 r.cycleUsedHours start_time)

/-- A request that passes every validation: three coordinate waypoints and
`cycleUsedHours = 0`. -/
def demoRequest : PlanTripRequest :=
  { current := some { lat := some 0, lng := some 0 }
    pickup := some { lat := some 1, lng := some 1 }
    dropoff := some { lat := some 2, lng := some 2 }
    cycleUsedHours := 0 }

/-! ### Claim-side checkers (decidable formulations of the spec properties) -/

/-- Running HOS accumulators recomputed from an event list: driving hours
since the last reset-or-break, driving hours in the current shift, and
duty-window hours in the current shift. -/
structure RunAcc where
  since_break : ℚ
  driving : ℚ
  window : ℚ
deriving DecidableEq, Repr

/-- How one schedule event advances the accumulators: driving adds to all
three; every on-duty stop of at least 30 minutes counts as a break; off-duty
of at least 10 hours is a shift reset, shorter off-duty is a break that still
consumes the duty window. -/
def stepAcc (a : RunAcc) (e : ScheduleEvent) : RunAcc :=
  let h := e.end_time - e.start_time
  match e.status with
  | DutyStatus.DRIVING =>
      { since_break := a.since_break + h, driving := a.driving + h, window := a.window + h }
  | DutyStatus.ON_DUTY_NOT_DRIVING =>
      { since_break := if 1/2 ≤ h then 0 else a.since_break,
        driving := a.driving, window := a.window + h }
  | DutyStatus.OFF_DUTY =>
      if 10 ≤ h then { since_break := 0, driving := 0, window := 0 }
      else { since_break := 0, driving := a.driving, window := a.window + h }
  | DutyStatus.SLEEPER_BERTH => a

def accFold (a : RunAcc) (events : List ScheduleEvent) : RunAcc :=
  events.foldl stepAcc a

/-- The HOS bounds of the spec: at most 8 h driving since the last
reset-or-break, at most 11 h driving and 14 h duty window per shift. -/
def hosBoundsB (a : RunAcc) : Bool :=
  decide (a.since_break ≤ 8) && decide (a.driving ≤ 11) && decide (a.window ≤ 14)

/-- `hosOk a events` checks the HOS bounds after every prefix of `events`. -/
def hosOk : RunAcc → List ScheduleEvent → Bool
  | _, [] => true
  | a, e :: es => hosBoundsB (stepAcc a e) && hosOk (stepAcc a e) es

/-- `tilesFrom t events u` holds when `events` tile the interval from `t` to
`u` exactly: each event starts where its predecessor ended. -/
def tilesFrom : ℚ → List ScheduleEvent → ℚ → Bool
  | t, [], u => decide (t = u)
  | t, e :: es, u => decide (e.start_time = t) && tilesFrom e.end_time es u

/-- Every event has a strictly positive duration. -/
def allPosB (events : List ScheduleEvent) : Bool :=
  events.all fun e => decide (e.start_time < e.end_time)

/-- Consecutive events never overlap (each ends no later than the next
starts); with positive durations this also gives strictly increasing
start times. -/
def chronoOk : List ScheduleEvent → Bool
  | [] => true
  | [_] => true
  | a :: b :: rest => decide (a.end_time ≤ b.start_time) && chronoOk (b :: rest)

/-- A non-driving event and a stop agree: same duration (the event measured
in minutes) and same mile position, with the event not moving the truck. -/
def stopMatchesB (e : ScheduleEvent) (s : Stop) : Bool :=
  decide (e.duration_minutes = s.duration_minutes) &&
    decide (e.miles_start = s.mile_marker) && decide (e.miles_end = s.mile_marker)

/-- In-order correspondence between the non-driving events and the stops:
driving events are skipped, and every other event must match the next stop. -/
def matchOk : List ScheduleEvent → List Stop → Bool
  | [], [] => true
  | [], _ :: _ => false
  | e :: es, stops =>
    if e.status = DutyStatus.DRIVING then matchOk es stops
    else match stops with
      | [] => false
      | s :: ss => stopMatchesB e s && matchOk es ss

/-- Number of FUEL stops in a schedule. -/
def countFuelStops (schedule : TripSchedule) : ℕ :=
  (schedule.stops.filter fun s => s.stop_type = StopType.FUEL).length

/-- Short-trip run used to witness the universally quantified scheduler
invariants: two 55-mile legs, no prior cycle hours, start at time 0. -/
def demoSchedule : TripSchedule :=
  (create_trip_schedule 6 55 55 0 0).getD {}

/-- Schedule-level structural invariant: the events tile the span from the
schedule's `start_time` to the clock value `t`, all events have positive
duration, and the non-driving events correspond in order to the stops. -/
def SchedOk (sch : TripSchedule) (t : ℚ) : Prop :=
  tilesFrom sch.start_time sch.events t = true ∧
  allPosB sch.events = true ∧
  matchOk sch.events sch.stops = true

/-- Loop-level structural invariant: the schedule is well-formed up to the
current clock and still carries the trip's original start time `t0`. -/
def StructOk (t0 : ℚ) (s : LoopState) : Prop :=
  SchedOk s.schedule s.current_time ∧ s.schedule.start_time = t0

/-- A stop helper preserves the structural invariant, returning the clock at
the end of the inserted event. -/
def PreservesSched (H : TripSchedule → ℚ → HOSState → ℚ → TripSchedule × ℚ × HOSState) : Prop :=
  ∀ sch t hos m, SchedOk sch t → SchedOk (H sch t hos m).1 (H sch t hos m).2.1

/-- Accounting invariant tying an `HOSState` to the miles travelled.  The
ghost numbers count, within the current shift: `b` rest breaks, `f` fuel
stops and `p` pickup/dropoff stops (at most `pmax` of the latter may have
happened); `sM` is the mile at which the shift started, and when `f = 1` the
shift's fuel stop happened at mile `fM`, a multiple of 1000, after `dF` hours
of this shift's driving. -/
def GhostInv (pmax : ℕ) (hos : HOSState) (cur : ℚ) : Prop :=
  ∃ b f p : ℕ, ∃ sM fM dF : ℚ,
    0 ≤ hos.driving_since_last_break ∧
    hos.driving_since_last_break ≤ 8 ∧
    hos.driving_hours_in_shift ≤ 11 ∧
    8 * b + hos.driving_since_last_break ≤ hos.driving_hours_in_shift ∧
    hos.duty_window_hours =
      hos.driving_hours_in_shift + (b : ℚ) / 2 + (f : ℚ) / 2 + (p : ℚ) ∧
    p ≤ pmax ∧ f ≤ 1 ∧
    cur = sM + 55 * hos.driving_hours_in_shift ∧
    (hos.shift_active = false →
      hos.driving_since_last_break = 0 ∧ hos.driving_hours_in_shift = 0 ∧
        hos.duty_window_hours = 0) ∧
    (f = 1 → (∃ k : ℤ, fM = 1000 * k) ∧ fM = sM + 55 * dF ∧ 0 ≤ dF ∧
      dF ≤ hos.driving_hours_in_shift)

/-- The accumulators recomputed from the emitted events agree with the
threaded `HOSState`, and every prefix of the events respects the HOS bounds. -/
def HosOkAt (events : List ScheduleEvent) (hos : HOSState) : Prop :=
  accFold ⟨0, 0, 0⟩ events =
    ⟨hos.driving_since_last_break, hos.driving_hours_in_shift, hos.duty_window_hours⟩ ∧
  hosOk ⟨0, 0, 0⟩ events = true

/-- HOS invariant of the drive loop: the event-derived accumulators agree with
the threaded `HOSState`, every event prefix respects the HOS bounds, and the
ghost accounting holds. -/
def HosInv (pmax : ℕ) (st : LoopState) : Prop :=
  HosOkAt st.schedule.events st.hos_state ∧
  GhostInv pmax st.hos_state st.current_miles

/-- A drive-loop state in which the 70-hour cycle alone is exhausted: no
driving is possible, yet no break and no shift reset is due, so the loop can
only insert cycle-limit resets that restore nothing. -/
def StuckInv (st : LoopState) : Prop :=
  0 < st.miles_to_drive ∧
  CYCLE_LIMIT_HOURS ≤ st.hos_state.cycle_hours_used ∧
  st.hos_state.driving_since_last_break < 8 ∧
  st.hos_state.driving_hours_in_shift < 11 ∧
  st.hos_state.duty_window_hours < 14

/-! ### Basic unfolding and arithmetic lemmas -/

theorem driveLoop_zero (end_name : String) (st : LoopState) :
    driveLoop end_name 0 st = if st.miles_to_drive ≤ 0 then some st else none := by
  rw [driveLoop]

theorem driveLoop_succ (end_name : String) (fuel : ℕ) (st : LoopState) :
    driveLoop end_name (fuel + 1) st =
      if st.miles_to_drive ≤ 0 then some st
      else driveLoop end_name fuel (driveBody end_name st) := by
  rw [driveLoop]

theorem fmod_nonneg (a b : ℚ) (hb : 0 < b) : 0 ≤ fmod a b := by
  have h := Int.sub_floor_div_mul_nonneg a hb
  simpa [fmod, mul_comm] using h

theorem fmod_lt (a b : ℚ) (hb : 0 < b) : fmod a b < b := by
  have h := Int.sub_floor_div_mul_lt a hb
  simpa [fmod, mul_comm] using h

/-- A driving advance that is capped by the distance to the next 1000-mile
boundary crosses that boundary (in the sense of the source's post-advance
check `current_miles % 1000 < miles_this_segment`) exactly when it lands on
a multiple of 1000. -/
theorem fmod_crossing (cur seg : ℚ) (hseg : 0 < seg)
    (hcap : seg ≤ 1000 - fmod cur 1000)
    (hcross : fmod (cur + seg) 1000 < seg) :
    cur + seg = 1000 * (⌊cur / 1000⌋ + 1) := by
  have h1000 : (0 : ℚ) < 1000 := by norm_num
  have hr0 : 0 ≤ fmod cur 1000 := fmod_nonneg cur 1000 h1000
  have hdecomp : cur = 1000 * ⌊cur / 1000⌋ + fmod cur 1000 := by
    unfold fmod; ring
  rcases lt_or_eq_of_le hcap with hlt | heq
  · -- the advance stays strictly inside the block: remainder grows by `seg`
    exfalso
    have hfloor : ⌊(cur + seg) / 1000⌋ = ⌊cur / 1000⌋ := by
      rw [Int.floor_eq_iff]
      constructor
      · rw [le_div_iff₀ h1000]
        nlinarith [hdecomp]
      · rw [div_lt_iff₀ h1000]
        nlinarith [hdecomp]
    have : fmod (cur + seg) 1000 = fmod cur 1000 + seg := by
      unfold fmod; rw [hfloor]; nlinarith [hdecomp]
    nlinarith [this, hr0]
  · -- the advance ends exactly on the boundary
    nlinarith [hdecomp, heq]

/-! ### Claim C3 — the continuous-driving limit formula -/

/-- C3: for every `HOSState`, the maximum further continuous driving equals
`max 0 (min drivingRemaining windowRemaining cycleRemaining
hoursUntilBreakRequired)`, each remaining budget being the cap minus the
consumed counter floored at 0, with caps 11, 14, 70 and 8 hours. -/
theorem c3_max_continuous_driving_formula (s : HOSState) :
    s.get_max_continuous_driving_hours =
      max 0 (min (min (max 0 (11 - s.driving_hours_in_shift))
          (max 0 (14 - s.duty_window_hours)))
        (min (max 0 (70 - s.cycle_hours_used))
          (max 0 (8 - s.driving_since_last_break)))) := by
  unfold HOSState.get_max_continuous_driving_hours HOSState.driving_hours_remaining
    HOSState.duty_window_remaining HOSState.cycle_hours_remaining
    HOSState.hours_until_break_required MAX_DRIVING_HOURS MAX_DUTY_WINDOW_HOURS
    CYCLE_LIMIT_HOURS BREAK_REQUIRED_AFTER_HOURS
  rw [min_assoc]

/-! ### Claim C6 — `add_off_duty_time` -/

/-- C6: off-duty time of at least 10 h fully resets the shift (all
shift-scoped counters zero, `shift_active = false`, cycle preserved); less
than 10 h only adds the hours to the duty window and clears the
since-last-break counter, leaving every other field unchanged. -/
theorem c6_add_off_duty_time (s : HOSState) (hours : ℚ) :
    (10 ≤ hours →
      add_off_duty_time s hours =
        { driving_hours_in_shift := 0, on_duty_hours_in_shift := 0,
          duty_window_hours := 0, driving_since_last_break := 0,
          cycle_hours_used := s.cycle_hours_used, shift_active := false }) ∧
    (hours < 10 →
      add_off_duty_time s hours =
        { s with duty_window_hours := s.duty_window_hours + hours,
                 driving_since_last_break := 0 }) := by
  constructor
  · intro h
    unfold add_off_duty_time OFF_DUTY_RESET_HOURS
    rw [if_pos h]
  · intro h
    unfold add_off_duty_time OFF_DUTY_RESET_HOURS
    rw [if_neg (not_le.mpr h)]

theorem c6_add_off_duty_time_witness :
    add_off_duty_time ⟨3, 4, 5, 2, 30, true⟩ 10 = ⟨0, 0, 0, 0, 30, false⟩ ∧
    add_off_duty_time ⟨3, 4, 5, 2, 30, true⟩ (1/2) = ⟨3, 4, 11/2, 0, 30, true⟩ := by
  refine ⟨(c6_add_off_duty_time ⟨3, 4, 5, 2, 30, true⟩ 10).1 (by norm_num), ?_⟩
  have h := (c6_add_off_duty_time ⟨3, 4, 5, 2, 30, true⟩ (1/2)).2 (by norm_num)
  have h52 : (5 : ℚ) + 1/2 = 11/2 := by norm_num
  rw [← h52]
  exact h

/-! ### Claim C2 — day segmentation at midnight -/

/-- C2 (code behaviour at the spec's Scenario 4 input): a DRIVING event from
22:00:00 to 02:00:00 of the next day (seconds 79200 to 93600) splits into a
first sub-event ending at 23:59:59 — 7199 seconds, not 2.0 h — and a second
of 7200 seconds, and both sub-events keep the parent's full
`miles_start`/`miles_end` range 0..220 instead of pro-rating it
(110 at the boundary). -/
theorem c2_day_split_code_behavior :
    get_schedule_by_day_event 3
        ⟨79200, 93600, DutyStatus.DRIVING, "Driving to Dropoff", 0, 220⟩ =
      [(0, ⟨79200, 86399, DutyStatus.DRIVING, "Driving to Dropoff", 0, 220⟩),
       (1, ⟨86400, 93600, DutyStatus.DRIVING, "Driving to Dropoff", 0, 220⟩)] ∧
    (86399 - 79200 ≠ 7200) ∧ ((220 : ℚ) ≠ 110) := by
  refine ⟨by decide, by decide, by norm_num⟩

/-! ### Transition equations for the stop helpers -/

theorem add_off_duty_time_big (hos : HOSState) (h : ℚ) (h10 : 10 ≤ h) :
    add_off_duty_time hos h = ⟨0, 0, 0, 0, hos.cycle_hours_used, false⟩ := by
  unfold add_off_duty_time OFF_DUTY_RESET_HOURS
  rw [if_pos h10]

theorem add_off_duty_time_small (hos : HOSState) (h : ℚ) (h10 : h < 10) :
    add_off_duty_time hos h =
      { hos with duty_window_hours := hos.duty_window_hours + h,
                 driving_since_last_break := 0 } := by
  unfold add_off_duty_time OFF_DUTY_RESET_HOURS
  rw [if_neg (not_le.mpr h10)]

theorem add_on_duty_time_break_active (hos : HOSState) (h : ℚ)
    (hact : hos.shift_active = true) (hh : 1/2 ≤ h) :
    add_on_duty_time hos h true =
      { hos with on_duty_hours_in_shift := hos.on_duty_hours_in_shift + h,
                 duty_window_hours := hos.duty_window_hours + h,
                 driving_since_last_break := 0,
                 cycle_hours_used := hos.cycle_hours_used + h,
                 shift_active := true } := by
  simp only [add_on_duty_time, hact, if_true]
  rw [if_pos ⟨trivial, by unfold BREAK_DURATION_MINUTES; linarith⟩]

theorem add_on_duty_time_break_inactive (hos : HOSState) (h : ℚ)
    (hact : hos.shift_active = false) (hh : 1/2 ≤ h) :
    add_on_duty_time hos h true = ⟨0, h, h, 0, hos.cycle_hours_used + h, true⟩ := by
  simp only [add_on_duty_time, hact, start_new_shift, Bool.false_eq_true, if_false]
  rw [if_pos ⟨trivial, by unfold BREAK_DURATION_MINUTES; linarith⟩]
  simp

theorem add_driving_time_active (hos : HOSState) (h : ℚ) (hact : hos.shift_active = true) :
    add_driving_time hos h =
      ⟨hos.driving_hours_in_shift + h, hos.on_duty_hours_in_shift + h,
        hos.duty_window_hours + h, hos.driving_since_last_break + h,
        hos.cycle_hours_used + h, true⟩ := by
  simp only [add_driving_time, hact, if_true]

theorem add_driving_time_inactive (hos : HOSState) (h : ℚ) (hact : hos.shift_active = false) :
    add_driving_time hos h = ⟨h, h, h, h, hos.cycle_hours_used + h, true⟩ := by
  simp only [add_driving_time, start_new_shift, hact, Bool.false_eq_true, if_false]
  simp

theorem add_rest_break_eq (sch : TripSchedule) (t : ℚ) (hos : HOSState) (m : ℚ) :
    add_rest_break sch t hos m =
      ({ sch with
          events := sch.events ++
            [⟨t, t + 1/2, DutyStatus.OFF_DUTY, "30-min Rest Break (8hr rule)", m, m⟩],
          stops := sch.stops ++ [⟨StopType.REST_BREAK, 30, m⟩],
          total_off_duty_hours := sch.total_off_duty_hours + 1/2 },
        t + 1/2, add_off_duty_time hos (1/2)) := by
  simp only [add_rest_break, BREAK_DURATION_MINUTES]
  norm_num

theorem add_off_duty_reset_eq (sch : TripSchedule) (t : ℚ) (hos : HOSState) (m : ℚ) :
    add_off_duty_reset sch t hos m =
      ({ sch with
          events := sch.events ++
            [⟨t, t + 10, DutyStatus.OFF_DUTY, "10-hr Off Duty (Shift Reset)", m, m⟩],
          stops := sch.stops ++ [⟨StopType.OFF_DUTY, 600, m⟩],
          total_off_duty_hours := sch.total_off_duty_hours + 10 },
        t + 10, ⟨0, 0, 0, 0, hos.cycle_hours_used, false⟩) := by
  simp only [add_off_duty_reset, OFF_DUTY_RESET_HOURS]
  rw [add_off_duty_time_big hos 10 le_rfl]
  norm_num

theorem add_fuel_stop_eq (sch : TripSchedule) (t : ℚ) (hos : HOSState) (m : ℚ) :
    add_fuel_stop sch t hos m =
      ({ sch with
          events := sch.events ++
            [⟨t, t + 1/2, DutyStatus.ON_DUTY_NOT_DRIVING, "Fuel Stop", m, m⟩],
          stops := sch.stops ++ [⟨StopType.FUEL, 30, m⟩],
          total_on_duty_hours := sch.total_on_duty_hours + 1/2 },
        t + 1/2, add_on_duty_time hos (1/2) true) := by
  simp only [add_fuel_stop, FUEL_STOP_DURATION_MINUTES]
  norm_num

theorem add_pickup_stop_eq (sch : TripSchedule) (t : ℚ) (hos : HOSState) (m : ℚ) :
    add_pickup_stop sch t hos m =
      ({ sch with
          events := sch.events ++
            [⟨t, t + 1, DutyStatus.ON_DUTY_NOT_DRIVING, "Pickup - Loading", m, m⟩],
          stops := sch.stops ++ [⟨StopType.PICKUP, 60, m⟩],
          total_on_duty_hours := sch.total_on_duty_hours + 1 },
        t + 1, add_on_duty_time hos 1 true) := by
  simp only [add_pickup_stop, PICKUP_DURATION_MINUTES]
  norm_num

theorem add_dropoff_stop_eq (sch : TripSchedule) (t : ℚ) (hos : HOSState) (m : ℚ) :
    add_dropoff_stop sch t hos m =
      ({ sch with
          events := sch.events ++
            [⟨t, t + 1, DutyStatus.ON_DUTY_NOT_DRIVING, "Dropoff - Unloading", m, m⟩],
          stops := sch.stops ++ [⟨StopType.DROPOFF, 60, m⟩],
          total_on_duty_hours := sch.total_on_duty_hours + 1 },
        t + 1, add_on_duty_time hos 1 true) := by
  simp only [add_dropoff_stop, DROPOFF_DURATION_MINUTES]
  norm_num

/-! ### Claim C1 — cycle exhaustion never terminates -/

set_option maxHeartbeats 1600000 in
theorem stuck_preserved (end_name : String) (st : LoopState) (h : StuckInv st) :
    StuckInv (driveBody end_name st) := by
  obtain ⟨hmtd, hcyc, hs, hd, hw⟩ := h
  have hstuck : StuckInv st := ⟨hmtd, hcyc, hs, hd, hw⟩
  have hcrem : st.hos_state.cycle_hours_remaining = 0 := by
    unfold HOSState.cycle_hours_remaining
    rw [max_eq_left (by linarith)]
  have hbrem : (0 : ℚ) ≤ st.hos_state.hours_until_break_required := le_max_left _ _
  have hwrem0 : (0 : ℚ) ≤ st.hos_state.duty_window_remaining := le_max_left _ _
  have hdrem0 : (0 : ℚ) ≤ st.hos_state.driving_hours_remaining := le_max_left _ _
  have hmax : st.hos_state.get_max_continuous_driving_hours = 0 := by
    unfold HOSState.get_max_continuous_driving_hours
    rw [hcrem]
    rw [min_eq_left hbrem, min_eq_right hwrem0, min_eq_right hdrem0, max_self]
  have hneeds : st.hos_state.needs_30_min_break = false := by
    unfold HOSState.needs_30_min_break BREAK_REQUIRED_AFTER_HOURS
    simp only [decide_eq_false_iff_not, not_le]
    exact hs
  have hseg : ∀ z : ℚ, min st.miles_to_drive (min 0 z) ≤ 0 :=
    fun z => le_trans (min_le_right _ _) (min_le_left _ _)
  have hreset : ∀ r : TripSchedule × ℚ × HOSState,
      r = add_off_duty_reset st.schedule st.current_time st.hos_state st.current_miles →
      StuckInv { st with schedule := r.1, current_time := r.2.1, hos_state := r.2.2 } := by
    intro r hr
    rw [add_off_duty_reset_eq] at hr
    subst hr
    exact ⟨hmtd, hcyc, by norm_num, by norm_num, by norm_num⟩
  unfold driveBody
  simp only [hmax, hneeds, zero_mul]
  split_ifs <;>
    first
      | exact hreset _ rfl
      | exact hstuck
      | simp_all

theorem driveLoop_stuck (end_name : String) :
    ∀ (fuel : ℕ) (st : LoopState), StuckInv st → driveLoop end_name fuel st = none := by
  intro fuel
  induction fuel with
  | zero =>
    intro st h
    rw [driveLoop_zero, if_neg (not_le.mpr h.1)]
  | succ n ih =>
    intro st h
    rw [driveLoop_succ, if_neg (not_le.mpr h.1)]
    exact ih _ (stuck_preserved end_name st h)

/-- C1: with `cycleUsedHours = 69.5` and a first leg of 100 miles (more than
0.5 h of driving), the drive loop never completes: under every iteration
budget the scheduler keeps inserting cycle-limit off-duty resets without
mileage progress and never produces a schedule, and the source has no
"cycle limit prevents completion" failure path at all — the Python loop
simply never terminates. -/
theorem c1_cycle_exhaustion_nonterminating (fuel : ℕ) :
    create_trip_schedule fuel 100 50 (139/2) 0 = none := by
  have hinit : driveLoop "Pickup" fuel
      { miles_to_drive := 100, current_miles := 0, current_time := 0,
        hos_state := start_new_shift { cycle_hours_used := 139/2, shift_active := false },
        schedule := { start_time := 0 } } = none := by
    cases fuel with
    | zero =>
      rw [driveLoop_zero, if_neg (by with_unfolding_all decide)]
    | succ n =>
      rw [driveLoop_succ, if_neg (by with_unfolding_all decide)]
      exact driveLoop_stuck "Pickup" n _
        ⟨by with_unfolding_all decide, by with_unfolding_all decide,
         by with_unfolding_all decide, by with_unfolding_all decide,
         by with_unfolding_all decide⟩
  simp only [create_trip_schedule]
  rw [hinit]

/-! ### Claim C4 — fuel stop at an exactly-1000-mile leg -/

set_option maxRecDepth 4000 in
/-- C4 counterexample: on a trip whose first leg is exactly 1000.0 miles
(second leg 50 miles, no prior cycle hours), the scheduler inserts zero FUEL
stops, not exactly one — the post-advance fuel check requires distance to
remain on the same leg. -/
theorem c4_counterexample_exact_1000_mile_leg :
    (create_trip_schedule 12 1000 50 0 0).map countFuelStops = some 0 ∧ (0 : ℕ) ≠ 1 := by
  refine ⟨by with_unfolding_all rfl, by decide⟩

set_option maxRecDepth 4000 in
/-- C4 amended: a leg of exactly 1000.0 miles triggers no fuel stop at its
end (the insertion requires remaining distance on the leg); when a driving
advance reaches a 1000-mile multiple with distance still remaining — as on a
1100-mile leg — exactly one FUEL stop is inserted, at that multiple. -/
theorem c4_amended_fuel_stop_rule :
    (create_trip_schedule 12 1000 50 0 0).map countFuelStops = some 0 ∧
    (create_trip_schedule 12 1100 0 0 0).map
      (fun s => (s.stops.filter fun st => st.stop_type = StopType.FUEL).map
        Stop.mile_marker) = some [1000] := by
  refine ⟨by with_unfolding_all rfl, by with_unfolding_all rfl⟩

/-! ### Claim C7 — invalid input -/

set_option maxRecDepth 4000 in
/-- C7 counterexample: a trip whose first leg has the invalid distance
`-100` miles is not rejected anywhere — the scheduler silently skips the
leg's drive loop and emits a complete schedule (pickup event, driving event,
dropoff event and both terminal stops). -/
theorem c7_counterexample_negative_leg_schedules :
    (create_trip_schedule 8 (-100) 50 0 0).map
      (fun s => (s.events.length, s.stops.length)) = some (3, 2) ∧
    (3 : ℕ) ≠ 0 := by
  refine ⟨by with_unfolding_all rfl, by decide⟩

set_option maxRecDepth 4000 in
/-- C7 amended: out-of-range `cycleUsedHours` and a missing leg are rejected
before any scheduling and produce no schedule — the serializer accepts
exactly the values in `[0, 70]`, a request missing any of its three
waypoints fails validation, and an absent route is answered with an error in
the view — but a negative leg distance is never rejected: it passes the
whole validation pipeline and the scheduler, skipping that leg's drive loop,
still emits a complete schedule. -/
theorem c7_amended_validation_rule :
    (∀ q : ℚ, cycleUsedHours_valid q = true ↔ 0 ≤ q ∧ q ≤ 70) ∧
    (∀ (fuel : ℕ) (p d : Option LocationInput) (q : ℚ)
        (route : Option (ℚ × ℚ)) (t0 : ℚ),
      plan_trip fuel
        { current := none, pickup := p, dropoff := d, cycleUsedHours := q }
        route t0 = Except.error "400: invalid request") ∧
    (∀ (fuel : ℕ) (c d : Option LocationInput) (q : ℚ)
        (route : Option (ℚ × ℚ)) (t0 : ℚ),
      plan_trip fuel
        { current := c, pickup := none, dropoff := d, cycleUsedHours := q }
        route t0 = Except.error "400: invalid request") ∧
    (∀ (fuel : ℕ) (c p : Option LocationInput) (q : ℚ)
        (route : Option (ℚ × ℚ)) (t0 : ℚ),
      plan_trip fuel
        { current := c, pickup := p, dropoff := none, cycleUsedHours := q }
        route t0 = Except.error "400: invalid request") ∧
    (∀ (fuel : ℕ) (r : PlanTripRequest) (t0 : ℚ), ∃ msg : String,
      plan_trip fuel r none t0 = Except.error msg) ∧
    (plan_trip 8 demoRequest (some (-100, 50)) 0).map
      (fun os => os.map fun s => (s.events.length, s.stops.length)) =
      Except.ok (some (3, 2)) := by
  refine ⟨?_, ?_, ?_, ?_, ?_, ?_⟩
  · intro q
    unfold cycleUsedHours_valid
    simp
  · intro fuel p d q route t0
    simp [plan_trip, requestValid]
  · intro fuel c d q route t0
    simp [plan_trip, requestValid]
  · intro fuel c p q route t0
    simp [plan_trip, requestValid]
  · intro fuel r t0
    unfold plan_trip
    split_ifs
    · exact ⟨_, rfl⟩
    · exact ⟨_, rfl⟩
  · with_unfolding_all rfl

/-! ### List lemmas for the checkers -/

theorem tilesFrom_append (es : List ScheduleEvent) (e : ScheduleEvent) :
    ∀ t u : ℚ, tilesFrom t (es ++ [e]) u =
      (tilesFrom t es e.start_time && decide (e.end_time = u)) := by
  induction es with
  | nil =>
    intro t u
    simp only [List.nil_append, tilesFrom]
    rw [decide_eq_decide.mpr ⟨Eq.symm, Eq.symm⟩]
  | cons f fs ih =>
    intro t u
    simp only [List.cons_append, tilesFrom, List.append_eq, ih, Bool.and_assoc]

theorem allPosB_append (es : List ScheduleEvent) (e : ScheduleEvent) :
    allPosB (es ++ [e]) = (allPosB es && decide (e.start_time < e.end_time)) := by
  simp [allPosB, List.all_append]

theorem accFold_append (a : RunAcc) (es : List ScheduleEvent) (e : ScheduleEvent) :
    accFold a (es ++ [e]) = stepAcc (accFold a es) e := by
  simp [accFold, List.foldl_append]

theorem hosOk_append (es : List ScheduleEvent) (e : ScheduleEvent) :
    ∀ a : RunAcc, hosOk a (es ++ [e]) =
      (hosOk a es && hosBoundsB (stepAcc (accFold a es) e)) := by
  induction es with
  | nil => intro a; simp [hosOk, accFold]
  | cons f fs ih =>
    intro a
    simp only [List.cons_append, hosOk, List.append_eq, ih, accFold, List.foldl_cons,
      Bool.and_assoc]

theorem matchOk_append (es' : List ScheduleEvent) (ss' : List Stop) :
    ∀ (es : List ScheduleEvent) (ss : List Stop), matchOk es ss = true →
      matchOk (es ++ es') (ss ++ ss') = matchOk es' ss' := by
  intro es
  induction es with
  | nil =>
    intro ss h
    cases ss with
    | nil => simp
    | cons s ss => simp [matchOk] at h
  | cons e es ih =>
    intro ss h
    by_cases hd : e.status = DutyStatus.DRIVING
    · simp only [matchOk, if_pos hd] at h
      simp only [List.cons_append, matchOk, if_pos hd]
      exact ih ss h
    · cases ss with
      | nil => simp [matchOk, if_neg hd] at h
      | cons s ss =>
        simp only [matchOk, if_neg hd, Bool.and_eq_true] at h
        simp only [List.cons_append, matchOk, if_neg hd, h.1, Bool.true_and]
        exact ih ss h.2

theorem chronoOk_of_tiles :
    ∀ (es : List ScheduleEvent) (t u : ℚ), tilesFrom t es u = true → chronoOk es = true
  | [], _, _, _ => rfl
  | [_], _, _, _ => rfl
  | e :: f :: es, t, u, h => by
    simp only [tilesFrom, Bool.and_eq_true, decide_eq_true_eq] at h
    obtain ⟨h1, hf, hrest⟩ := h
    simp only [chronoOk, Bool.and_eq_true, decide_eq_true_eq]
    refine ⟨le_of_eq hf.symm, ?_⟩
    have hrec := chronoOk_of_tiles (f :: es) e.end_time u
    simp only [tilesFrom, Bool.and_eq_true, decide_eq_true_eq] at hrec
    exact hrec ⟨hf, hrest⟩

/-! ### Structural invariant machinery -/

theorem schedOk_append_stop (sch : TripSchedule) (t : ℚ) (e : ScheduleEvent) (s : Stop)
    (h : SchedOk sch t) (he1 : e.start_time = t) (he2 : t < e.end_time)
    (hnd : ¬ e.status = DutyStatus.DRIVING) (hm : stopMatchesB e s = true)
    (sch' : TripSchedule)
    (hes : sch'.events = sch.events ++ [e]) (hss : sch'.stops = sch.stops ++ [s])
    (hst : sch'.start_time = sch.start_time) :
    SchedOk sch' e.end_time := by
  obtain ⟨h1, h2, h3⟩ := h
  refine ⟨?_, ?_, ?_⟩
  · rw [hst, hes, tilesFrom_append, he1]
    simp [h1]
  · rw [hes, allPosB_append]
    simp [h2, he1 ▸ he2]
  · rw [hes, hss, matchOk_append _ _ _ _ h3]
    simp [matchOk, hnd, hm]

theorem schedOk_append_driving (sch : TripSchedule) (t : ℚ) (e : ScheduleEvent)
    (h : SchedOk sch t) (he1 : e.start_time = t) (he2 : t < e.end_time)
    (hd : e.status = DutyStatus.DRIVING)
    (sch' : TripSchedule)
    (hes : sch'.events = sch.events ++ [e]) (hss : sch'.stops = sch.stops)
    (hst : sch'.start_time = sch.start_time) :
    SchedOk sch' e.end_time := by
  obtain ⟨h1, h2, h3⟩ := h
  refine ⟨?_, ?_, ?_⟩
  · rw [hst, hes, tilesFrom_append, he1]
    simp [h1]
  · rw [hes, allPosB_append]
    simp [h2, he1 ▸ he2]
  · rw [hes, hss, ← List.append_nil sch.stops, matchOk_append [e] [] _ _ h3]
    simp [matchOk, hd]

theorem preserves_add_rest_break : PreservesSched add_rest_break := by
  intro sch t hos m h
  rw [add_rest_break_eq]
  refine schedOk_append_stop sch t
    ⟨t, t + 1/2, DutyStatus.OFF_DUTY, "30-min Rest Break (8hr rule)", m, m⟩
    ⟨StopType.REST_BREAK, 30, m⟩ h rfl (by norm_num) (by simp) ?_ _ rfl rfl rfl
  norm_num [stopMatchesB, ScheduleEvent.duration_minutes]

theorem preserves_add_off_duty_reset : PreservesSched add_off_duty_reset := by
  intro sch t hos m h
  rw [add_off_duty_reset_eq]
  refine schedOk_append_stop sch t
    ⟨t, t + 10, DutyStatus.OFF_DUTY, "10-hr Off Duty (Shift Reset)", m, m⟩
    ⟨StopType.OFF_DUTY, 600, m⟩ h rfl (by norm_num) (by simp) ?_ _ rfl rfl rfl
  norm_num [stopMatchesB, ScheduleEvent.duration_minutes]

theorem preserves_add_fuel_stop : PreservesSched add_fuel_stop := by
  intro sch t hos m h
  rw [add_fuel_stop_eq]
  refine schedOk_append_stop sch t
    ⟨t, t + 1/2, DutyStatus.ON_DUTY_NOT_DRIVING, "Fuel Stop", m, m⟩
    ⟨StopType.FUEL, 30, m⟩ h rfl (by norm_num) (by simp) ?_ _ rfl rfl rfl
  norm_num [stopMatchesB, ScheduleEvent.duration_minutes]

theorem preserves_add_pickup_stop : PreservesSched add_pickup_stop := by
  intro sch t hos m h
  rw [add_pickup_stop_eq]
  refine schedOk_append_stop sch t
    ⟨t, t + 1, DutyStatus.ON_DUTY_NOT_DRIVING, "Pickup - Loading", m, m⟩
    ⟨StopType.PICKUP, 60, m⟩ h rfl (by norm_num) (by simp) ?_ _ rfl rfl rfl
  norm_num [stopMatchesB, ScheduleEvent.duration_minutes]

theorem preserves_add_dropoff_stop : PreservesSched add_dropoff_stop := by
  intro sch t hos m h
  rw [add_dropoff_stop_eq]
  refine schedOk_append_stop sch t
    ⟨t, t + 1, DutyStatus.ON_DUTY_NOT_DRIVING, "Dropoff - Unloading", m, m⟩
    ⟨StopType.DROPOFF, 60, m⟩ h rfl (by norm_num) (by simp) ?_ _ rfl rfl rfl
  norm_num [stopMatchesB, ScheduleEvent.duration_minutes]

theorem start_add_rest_break (sch : TripSchedule) (t : ℚ) (hos : HOSState) (m : ℚ) :
    (add_rest_break sch t hos m).1.start_time = sch.start_time := by
  rw [add_rest_break_eq]

theorem start_add_off_duty_reset (sch : TripSchedule) (t : ℚ) (hos : HOSState) (m : ℚ) :
    (add_off_duty_reset sch t hos m).1.start_time = sch.start_time := by
  rw [add_off_duty_reset_eq]

theorem start_add_fuel_stop (sch : TripSchedule) (t : ℚ) (hos : HOSState) (m : ℚ) :
    (add_fuel_stop sch t hos m).1.start_time = sch.start_time := by
  rw [add_fuel_stop_eq]

theorem start_add_pickup_stop (sch : TripSchedule) (t : ℚ) (hos : HOSState) (m : ℚ) :
    (add_pickup_stop sch t hos m).1.start_time = sch.start_time := by
  rw [add_pickup_stop_eq]

theorem start_add_dropoff_stop (sch : TripSchedule) (t : ℚ) (hos : HOSState) (m : ℚ) :
    (add_dropoff_stop sch t hos m).1.start_time = sch.start_time := by
  rw [add_dropoff_stop_eq]

theorem schedOk_helper_step (H : TripSchedule → ℚ → HOSState → ℚ → TripSchedule × ℚ × HOSState)
    (hH : PreservesSched H) (sch : TripSchedule) (t : ℚ) (hos : HOSState) (cm : ℚ)
    (hok : SchedOk sch t) : SchedOk (H sch t hos cm).1 (H sch t hos cm).2.1 :=
  hH sch t hos cm hok

theorem schedOk_advanceSched (name : String) (sch : TripSchedule) (t cm seg : ℚ)
    (hseg : 0 < seg) (hok : SchedOk sch t) :
    SchedOk
      { sch with
        events := sch.events ++
          [⟨t, t + seg / AVG_SPEED_MPH, DutyStatus.DRIVING, "Driving to " ++ name,
            cm, cm + seg⟩],
        total_driving_hours := sch.total_driving_hours + seg / AVG_SPEED_MPH,
        total_on_duty_hours := sch.total_on_duty_hours + seg / AVG_SPEED_MPH }
      (t + seg / AVG_SPEED_MPH) := by
  have hpos : (0 : ℚ) < seg / AVG_SPEED_MPH := by
    unfold AVG_SPEED_MPH
    positivity
  exact schedOk_append_driving sch t
    ⟨t, t + seg / AVG_SPEED_MPH, DutyStatus.DRIVING, "Driving to " ++ name, cm, cm + seg⟩
    hok rfl (by linarith) rfl _ rfl rfl rfl

set_option maxHeartbeats 1600000 in
theorem structOk_driveBody (name : String) (st : LoopState)
    (h : StructOk st.schedule.start_time st) :
    StructOk st.schedule.start_time (driveBody name st) := by
  simp only [driveBody]
  split_ifs
  all_goals refine ⟨?_, ?_⟩
  all_goals
    repeat
      first
        | exact h.1
        | rfl
        | exact schedOk_advanceSched name _ _ _ _ (lt_of_not_le (by assumption)) h.1
        | apply schedOk_helper_step _ preserves_add_off_duty_reset
        | apply schedOk_helper_step _ preserves_add_rest_break
        | apply schedOk_helper_step _ preserves_add_fuel_stop
        | exact st.hos_state

theorem structOk_driveBody_any (name : String) (st : LoopState) (t0 : ℚ)
    (h : StructOk t0 st) : StructOk t0 (driveBody name st) :=
  have hb := structOk_driveBody name st ⟨h.1, rfl⟩
  ⟨hb.1, hb.2.trans h.2⟩

theorem structOk_driveLoop (name : String) :
    ∀ (fuel : ℕ) (st st' : LoopState) (t0 : ℚ),
      driveLoop name fuel st = some st' → StructOk t0 st → StructOk t0 st' := by
  intro fuel
  induction fuel with
  | zero =>
    intro st st' t0 hrun h
    rw [driveLoop_zero] at hrun
    split_ifs at hrun
    cases hrun
    exact h
  | succ n ih =>
    intro st st' t0 hrun h
    rw [driveLoop_succ] at hrun
    split_ifs at hrun
    · cases hrun
      exact h
    · exact ih _ _ t0 hrun (structOk_driveBody_any name st t0 h)

theorem structOk_create (fuel : ℕ) (l1 l2 cyc t0 : ℚ) (sched : TripSchedule)
    (h : create_trip_schedule fuel l1 l2 cyc t0 = some sched) :
    SchedOk sched sched.end_time ∧ sched.start_time = t0 := by
  simp only [create_trip_schedule] at h
  split at h
  · cases h
  · rename_i st₁ hEq1
    have hinit : StructOk t0
        { miles_to_drive := l1, current_miles := 0, current_time := t0,
          hos_state := start_new_shift { cycle_hours_used := cyc, shift_active := false },
          schedule := { start_time := t0 } } := by
      refine ⟨⟨?_, rfl, rfl⟩, rfl⟩
      simp [tilesFrom]
    have h₁ := structOk_driveLoop "Pickup" fuel _ st₁ t0 hEq1 hinit
    have hp : SchedOk (add_pickup_stop st₁.schedule st₁.current_time st₁.hos_state
        st₁.current_miles).1 (add_pickup_stop st₁.schedule st₁.current_time st₁.hos_state
        st₁.current_miles).2.1 :=
      preserves_add_pickup_stop _ _ _ _ h₁.1
    have hps : (add_pickup_stop st₁.schedule st₁.current_time st₁.hos_state
        st₁.current_miles).1.start_time = t0 :=
      (start_add_pickup_stop _ _ _ _).trans h₁.2
    split at h
    · cases h
    · rename_i st₂ hEq2
      have h₂ := structOk_driveLoop "Dropoff" fuel _ st₂ t0 hEq2 ⟨hp, hps⟩
      have hd : SchedOk (add_dropoff_stop st₂.schedule st₂.current_time st₂.hos_state
          st₂.current_miles).1 (add_dropoff_stop st₂.schedule st₂.current_time st₂.hos_state
          st₂.current_miles).2.1 :=
        preserves_add_dropoff_stop _ _ _ _ h₂.1
      have hds : (add_dropoff_stop st₂.schedule st₂.current_time st₂.hos_state
          st₂.current_miles).1.start_time = t0 :=
        (start_add_dropoff_stop _ _ _ _).trans h₂.2
      cases h
      exact ⟨hd, hds⟩

/-- C8: every schedule the scheduler produces has only events with
`startTime < endTime` (no zero-length events), in non-decreasing start order
with no two events overlapping. -/
theorem c8_events_positive_ordered (fuel : ℕ) (l1 l2 cyc t0 : ℚ) (sched : TripSchedule)
    (h : create_trip_schedule fuel l1 l2 cyc t0 = some sched) :
    allPosB sched.events = true ∧ chronoOk sched.events = true := by
  obtain ⟨⟨ht, hp, -⟩, -⟩ := structOk_create fuel l1 l2 cyc t0 sched h
  exact ⟨hp, chronoOk_of_tiles sched.events _ _ ht⟩

set_option maxRecDepth 4000 in
theorem c8_events_positive_ordered_witness :
    allPosB demoSchedule.events = true ∧ chronoOk demoSchedule.events = true :=
  c8_events_positive_ordered 6 55 55 0 0 demoSchedule (by with_unfolding_all rfl)

/-- C9: in every schedule the scheduler produces, the stops correspond
one-to-one and in order to the non-driving events, with matching duration
(the stop's minutes equalling the event's duration in minutes) and matching
mile position (the event does not move the truck and sits at the stop's mile
marker). -/
theorem c9_stops_match_events (fuel : ℕ) (l1 l2 cyc t0 : ℚ) (sched : TripSchedule)
    (h : create_trip_schedule fuel l1 l2 cyc t0 = some sched) :
    matchOk sched.events sched.stops = true :=
  (structOk_create fuel l1 l2 cyc t0 sched h).1.2.2

set_option maxRecDepth 4000 in
theorem c9_stops_match_events_witness : matchOk demoSchedule.events demoSchedule.stops = true :=
  c9_stops_match_events 6 55 55 0 0 demoSchedule (by with_unfolding_all rfl)

/-- C10: in every schedule the scheduler produces, consecutive events abut
exactly — the events tile the interval from the trip's `startTime` to its
`endTime` with no gaps: the first event starts at `startTime`, each event
starts where its predecessor ended, and the last event ends at `endTime`. -/
theorem c10_events_tile_trip (fuel : ℕ) (l1 l2 cyc t0 : ℚ) (sched : TripSchedule)
    (h : create_trip_schedule fuel l1 l2 cyc t0 = some sched) :
    tilesFrom sched.start_time sched.events sched.end_time = true :=
  (structOk_create fuel l1 l2 cyc t0 sched h).1.1

set_option maxRecDepth 4000 in
theorem c10_events_tile_trip_witness :
    tilesFrom demoSchedule.start_time demoSchedule.events demoSchedule.end_time = true :=
  c10_events_tile_trip 6 55 55 0 0 demoSchedule (by with_unfolding_all rfl)

/-! ### HOS invariant machinery -/

theorem maxh_le_driving (hos : HOSState) :
    hos.get_max_continuous_driving_hours ≤ hos.driving_hours_remaining := by
  unfold HOSState.get_max_continuous_driving_hours
  exact max_le (le_max_left 0 _) (min_le_left _ _)

theorem maxh_le_break (hos : HOSState) :
    hos.get_max_continuous_driving_hours ≤ hos.hours_until_break_required := by
  unfold HOSState.get_max_continuous_driving_hours
  refine max_le (le_max_left 0 _) ?_
  exact le_trans (min_le_right _ _) (le_trans (min_le_right _ _) (min_le_right _ _))

theorem ghost_b_le_one (b : ℕ) (s d : ℚ) (h1 : 0 ≤ s) (h3 : d ≤ 11)
    (h4 : 8 * b + s ≤ d) : (b : ℚ) ≤ 1 := by
  by_contra hb
  push_neg at hb
  have : (2 : ℚ) ≤ (b : ℚ) := by
    have : (1 : ℕ) < b := by exact_mod_cast hb
    exact_mod_cast this
  linarith

theorem hosstep_reset (pmax : ℕ) (events : List ScheduleEvent) (hos : HOSState)
    (cur t m : ℚ) (hinv : HosOkAt events hos) :
    HosOkAt (events ++ [⟨t, t + 10, DutyStatus.OFF_DUTY, "10-hr Off Duty (Shift Reset)", m, m⟩])
      ⟨0, 0, 0, 0, hos.cycle_hours_used, false⟩ ∧
    GhostInv pmax ⟨0, 0, 0, 0, hos.cycle_hours_used, false⟩ cur := by
  obtain ⟨hacc, hok⟩ := hinv
  refine ⟨⟨?_, ?_⟩, ?_⟩
  · rw [accFold_append, hacc]
    norm_num [stepAcc]
  · rw [hosOk_append, hok, hacc]
    norm_num [stepAcc, hosBoundsB]
  · refine ⟨0, 0, 0, cur, 0, 0, by norm_num, by norm_num, by norm_num, by norm_num,
      by push_cast; norm_num, Nat.zero_le _, by norm_num, by norm_num,
      fun _ => ⟨rfl, rfl, rfl⟩, fun hf => absurd hf (by norm_num)⟩

theorem hosstep_rest (pmax : ℕ) (events : List ScheduleEvent) (hos : HOSState)
    (cur t m : ℚ) (hpmax : pmax ≤ 1)
    (hinv : HosOkAt events hos) (hg : GhostInv pmax hos cur)
    (hneeds : 8 ≤ hos.driving_since_last_break) :
    HosOkAt (events ++ [⟨t, t + 1/2, DutyStatus.OFF_DUTY, "30-min Rest Break (8hr rule)", m, m⟩])
      (add_off_duty_time hos (1/2)) ∧
    GhostInv pmax (add_off_duty_time hos (1/2)) cur := by
  obtain ⟨hacc, hok⟩ := hinv
  obtain ⟨b, f, p, sM, fM, dF, h1, h2, h3, h4, h5, h6, h7, h8, h9, h10⟩ := hg
  have hs8 : hos.driving_since_last_break = 8 := le_antisymm h2 hneeds
  have hb0 : b = 0 := by
    by_contra hb
    have hb1 : (1 : ℕ) ≤ b := Nat.one_le_iff_ne_zero.mpr hb
    have : (1 : ℚ) ≤ (b : ℚ) := by exact_mod_cast hb1
    rw [hs8] at h4
    linarith
  have hfq : (f : ℚ) ≤ 1 := by exact_mod_cast h7
  have hpq : (p : ℚ) ≤ 1 := by
    have : p ≤ 1 := le_trans h6 hpmax
    exact_mod_cast this
  rw [add_off_duty_time_small hos (1/2) (by norm_num)]
  subst hb0
  refine ⟨⟨?_, ?_⟩, ?_⟩
  · rw [accFold_append, hacc]
    norm_num [stepAcc]
  · rw [hosOk_append, hok, hacc]
    have hwle : hos.duty_window_hours + 1/2 ≤ 14 := by
      push_cast at h5
      linarith
    norm_num [stepAcc, hosBoundsB]
    exact ⟨h3, hwle⟩
  · refine ⟨1, f, p, sM, fM, dF, le_rfl, by norm_num, h3, ?_, ?_, h6, h7, h8, ?_, ?_⟩
    · push_cast
      linarith
    · push_cast
      push_cast at h5
      linarith
    · intro hact
      obtain ⟨hz, -, -⟩ := h9 hact
      rw [hz] at hs8
      norm_num at hs8
    · exact h10

theorem hosstep_stop60 (pmax : ℕ) (note : String) (events : List ScheduleEvent)
    (hos : HOSState) (cur t m : ℚ) (hpmax : pmax ≤ 1)
    (hinv : HosOkAt events hos) (hg : GhostInv pmax hos cur) :
    HosOkAt (events ++ [⟨t, t + 1, DutyStatus.ON_DUTY_NOT_DRIVING, note, m, m⟩])
      (add_on_duty_time hos 1 true) ∧
    GhostInv (pmax + 1) (add_on_duty_time hos 1 true) cur := by
  obtain ⟨hacc, hok⟩ := hinv
  obtain ⟨b, f, p, sM, fM, dF, h1, h2, h3, h4, h5, h6, h7, h8, h9, h10⟩ := hg
  have hbq : (b : ℚ) ≤ 1 := ghost_b_le_one b _ _ h1 h3 h4
  have hfq : (f : ℚ) ≤ 1 := by exact_mod_cast h7
  have hpq : (p : ℚ) ≤ 1 := by
    have : p ≤ 1 := le_trans h6 hpmax
    exact_mod_cast this
  have hfields : (add_on_duty_time hos 1 true).driving_since_last_break = 0 ∧
      (add_on_duty_time hos 1 true).driving_hours_in_shift = hos.driving_hours_in_shift ∧
      (add_on_duty_time hos 1 true).duty_window_hours = hos.duty_window_hours + 1 ∧
      (add_on_duty_time hos 1 true).shift_active = true := by
    cases hact : hos.shift_active
    · obtain ⟨hz1, hz2, hz3⟩ := h9 hact
      rw [add_on_duty_time_break_inactive hos 1 hact (by norm_num)]
      exact ⟨rfl, by rw [hz2], by rw [hz3, zero_add], rfl⟩
    · rw [add_on_duty_time_break_active hos 1 hact (by norm_num)]
      exact ⟨rfl, rfl, rfl, rfl⟩
  obtain ⟨hf1, hf2, hf3, hf4⟩ := hfields
  refine ⟨⟨?_, ?_⟩, ?_⟩
  · rw [accFold_append, hacc]
    have : stepAcc ⟨hos.driving_since_last_break, hos.driving_hours_in_shift,
        hos.duty_window_hours⟩ ⟨t, t + 1, DutyStatus.ON_DUTY_NOT_DRIVING, note, m, m⟩ =
        ⟨0, hos.driving_hours_in_shift, hos.duty_window_hours + 1⟩ := by
      norm_num [stepAcc]
    rw [this, hf1, hf2, hf3]
  · rw [hosOk_append, hok, hacc]
    have hwle : hos.duty_window_hours + 1 ≤ 14 := by linarith
    norm_num [stepAcc, hosBoundsB]
    exact ⟨h3, hwle⟩
  · refine ⟨b, f, p + 1, sM, fM, dF, ?_, ?_, ?_, ?_, ?_, ?_, h7, ?_, ?_, ?_⟩
    · rw [hf1]
    · rw [hf1]; norm_num
    · rw [hf2]; exact h3
    · rw [hf1, hf2]; linarith
    · rw [hf3, hf2]; push_cast; push_cast at h5; linarith
    · exact Nat.add_le_add h6 le_rfl
    · rw [hf2]; exact h8
    · intro hact
      rw [hf4] at hact
      cases hact
    · intro hf
      rw [hf2]
      exact h10 hf

set_option maxHeartbeats 1600000 in
theorem hosstep_drive_and_fuel (pmax : ℕ) (name : String) (events : List ScheduleEvent)
    (hos : HOSState) (cur t seg : ℚ)
    (hseg : 0 < seg)
    (hcapm : seg ≤ hos.get_max_continuous_driving_hours * AVG_SPEED_MPH)
    (hcapf : seg ≤ FUEL_STOP_INTERVAL_MILES - fmod cur FUEL_STOP_INTERVAL_MILES)
    (hpmax : pmax ≤ 1)
    (hinv : HosOkAt events hos) (hg : GhostInv pmax hos cur) :
    (HosOkAt (events ++ [⟨t, t + seg / AVG_SPEED_MPH, DutyStatus.DRIVING,
        "Driving to " ++ name, cur, cur + seg⟩])
        (add_driving_time hos (seg / AVG_SPEED_MPH)) ∧
      GhostInv pmax (add_driving_time hos (seg / AVG_SPEED_MPH)) (cur + seg)) ∧
    (fmod (cur + seg) FUEL_STOP_INTERVAL_MILES < seg →
      HosOkAt ((events ++ [⟨t, t + seg / AVG_SPEED_MPH, DutyStatus.DRIVING,
          "Driving to " ++ name, cur, cur + seg⟩]) ++
          [⟨t + seg / AVG_SPEED_MPH, t + seg / AVG_SPEED_MPH + 1/2,
            DutyStatus.ON_DUTY_NOT_DRIVING, "Fuel Stop", cur + seg, cur + seg⟩])
        (add_on_duty_time (add_driving_time hos (seg / AVG_SPEED_MPH)) (1/2) true) ∧
      GhostInv pmax (add_on_duty_time (add_driving_time hos (seg / AVG_SPEED_MPH)) (1/2) true)
        (cur + seg)) := by
  obtain ⟨hacc, hok⟩ := hinv
  obtain ⟨b, f, p, sM, fM, dF, h1, h2, h3, h4, h5, h6, h7, h8, h9, h10⟩ := hg
  have hbq : (b : ℚ) ≤ 1 := ghost_b_le_one b _ _ h1 h3 h4
  have hfq : (f : ℚ) ≤ 1 := by exact_mod_cast h7
  have hpq : (p : ℚ) ≤ 1 := by
    have : p ≤ 1 := le_trans h6 hpmax
    exact_mod_cast this
  simp only [AVG_SPEED_MPH, FUEL_STOP_INTERVAL_MILES] at hcapm hcapf ⊢
  set dh := seg / (55 : ℚ) with hdh
  have hdhpos : 0 < dh := by
    rw [hdh]
    positivity
  have hseg55 : 55 * dh = seg := by
    rw [hdh]
    field_simp
  have hdhm : dh ≤ hos.get_max_continuous_driving_hours := by
    rw [hdh, div_le_iff₀ (by norm_num : (0:ℚ) < 55)]
    linarith
  have hdhd : dh ≤ 11 - hos.driving_hours_in_shift := by
    have hx := maxh_le_driving hos
    unfold HOSState.driving_hours_remaining MAX_DRIVING_HOURS at hx
    rw [max_eq_right (by linarith)] at hx
    linarith
  have hdhb : dh ≤ 8 - hos.driving_since_last_break := by
    have hx := maxh_le_break hos
    unfold HOSState.hours_until_break_required BREAK_REQUIRED_AFTER_HOURS at hx
    rw [max_eq_right (by linarith)] at hx
    linarith
  have hfields : (add_driving_time hos dh).driving_since_last_break =
        hos.driving_since_last_break + dh ∧
      (add_driving_time hos dh).driving_hours_in_shift = hos.driving_hours_in_shift + dh ∧
      (add_driving_time hos dh).duty_window_hours = hos.duty_window_hours + dh ∧
      (add_driving_time hos dh).shift_active = true := by
    cases hact : hos.shift_active
    · obtain ⟨hz1, hz2, hz3⟩ := h9 hact
      rw [add_driving_time_inactive hos dh hact]
      exact ⟨by rw [hz1, zero_add], by rw [hz2, zero_add], by rw [hz3, zero_add], rfl⟩
    · rw [add_driving_time_active hos dh hact]
      exact ⟨rfl, rfl, rfl, rfl⟩
  obtain ⟨hf1, hf2, hf3, hf4⟩ := hfields
  have hdrv : HosOkAt (events ++ [⟨t, t + dh, DutyStatus.DRIVING,
      "Driving to " ++ name, cur, cur + seg⟩]) (add_driving_time hos dh) ∧
      GhostInv pmax (add_driving_time hos dh) (cur + seg) := by
    refine ⟨⟨?_, ?_⟩, ?_⟩
    · rw [accFold_append, hacc]
      have hstep : stepAcc ⟨hos.driving_since_last_break, hos.driving_hours_in_shift,
          hos.duty_window_hours⟩ ⟨t, t + dh, DutyStatus.DRIVING,
            "Driving to " ++ name, cur, cur + seg⟩ =
          ⟨hos.driving_since_last_break + dh, hos.driving_hours_in_shift + dh,
            hos.duty_window_hours + dh⟩ := by
        simp only [stepAcc]
        norm_num
      rw [hstep, hf1, hf2, hf3]
    · rw [hosOk_append, hok, hacc]
      have hb1 : hos.driving_since_last_break + dh ≤ 8 := by linarith
      have hb2 : hos.driving_hours_in_shift + dh ≤ 11 := by linarith
      have hb3 : hos.duty_window_hours + dh ≤ 14 := by push_cast at h5; linarith
      simp only [stepAcc, hosBoundsB, Bool.and_eq_true, decide_eq_true_eq]
      norm_num
      exact ⟨⟨hb1, hb2⟩, hb3⟩
    · refine ⟨b, f, p, sM, fM, dF, ?_, ?_, ?_, ?_, ?_, h6, h7, ?_, ?_, ?_⟩
      · rw [hf1]; linarith
      · rw [hf1]; linarith
      · rw [hf2]; linarith
      · rw [hf1, hf2]; linarith
      · rw [hf3, hf2]; push_cast; push_cast at h5; linarith
      · rw [hf2, h8, ← hseg55]; ring
      · intro hact
        rw [hf4] at hact
        cases hact
      · intro hf
        obtain ⟨hk, hfm, hdF0, hdFd⟩ := h10 hf
        rw [hf2]
        exact ⟨hk, hfm, hdF0, by linarith⟩
  refine ⟨hdrv, ?_⟩
  intro hcross
  have hmult : cur + seg = 1000 * (⌊cur / 1000⌋ + 1) :=
    fmod_crossing cur seg hseg hcapf hcross
  have hf0 : f = 0 := by
    rcases Nat.lt_or_ge f 1 with hlt | hge
    · omega
    · exfalso
      have hf1' : f = 1 := le_antisymm h7 hge
      obtain ⟨⟨k, hk⟩, hfm, hdF0, hdFd⟩ := h10 hf1'
      have hfMle : fM ≤ cur := by
        rw [hfm, h8]
        nlinarith
      have hlt' : fM < cur + seg := by linarith
      have hdiff : cur + seg - fM ≤ 605 := by
        rw [hfm, h8, ← hseg55]
        nlinarith
      have hklt : k < ⌊cur / 1000⌋ + 1 := by
        have hq1 : (1000 : ℚ) * k < 1000 * (⌊cur / 1000⌋ + 1) := by
          rw [← hk, ← hmult]
          exact hlt'
        have h2' : (k : ℚ) < (⌊cur / 1000⌋ : ℚ) + 1 := by linarith
        exact_mod_cast h2'
      have hge1000 : (1000 : ℚ) ≤ cur + seg - fM := by
        rw [hmult, hk]
        have hk1 : k + 1 ≤ ⌊cur / 1000⌋ + 1 := hklt
        have hcast : (k : ℚ) + 1 ≤ (⌊cur / 1000⌋ : ℚ) + 1 := by exact_mod_cast hk1
        nlinarith
      linarith
  subst hf0
  obtain ⟨⟨hacc', hok'⟩, -⟩ := hdrv
  have hb0q : (0 : ℚ) ≤ (b : ℚ) := Nat.cast_nonneg b
  have hgf1 : (add_on_duty_time (add_driving_time hos dh) (1/2) true).driving_since_last_break
      = 0 := by
    rw [add_on_duty_time_break_active _ _ hf4 (by norm_num)]
  have hgf2 : (add_on_duty_time (add_driving_time hos dh) (1/2) true).driving_hours_in_shift
      = hos.driving_hours_in_shift + dh := by
    rw [add_on_duty_time_break_active _ _ hf4 (by norm_num)]
    exact hf2
  have hgf3 : (add_on_duty_time (add_driving_time hos dh) (1/2) true).duty_window_hours
      = hos.duty_window_hours + dh + 1/2 := by
    rw [add_on_duty_time_break_active _ _ hf4 (by norm_num)]
    show (add_driving_time hos dh).duty_window_hours + 1/2 = _
    rw [hf3]
  have hgf4 : (add_on_duty_time (add_driving_time hos dh) (1/2) true).shift_active = true := by
    rw [add_on_duty_time_break_active _ _ hf4 (by norm_num)]
  refine ⟨⟨?_, ?_⟩, ?_⟩
  · rw [accFold_append, hacc']
    have hstep : stepAcc ⟨(add_driving_time hos dh).driving_since_last_break,
        (add_driving_time hos dh).driving_hours_in_shift,
        (add_driving_time hos dh).duty_window_hours⟩
        ⟨t + dh, t + dh + 1/2, DutyStatus.ON_DUTY_NOT_DRIVING, "Fuel Stop",
          cur + seg, cur + seg⟩ =
        ⟨0, (add_driving_time hos dh).driving_hours_in_shift,
          (add_driving_time hos dh).duty_window_hours + 1/2⟩ := by
      simp only [stepAcc]
      norm_num
    rw [hstep, hgf1, hgf2, hgf3, hf2, hf3]
  · rw [hosOk_append, hok', hacc']
    have hb2 : (add_driving_time hos dh).driving_hours_in_shift ≤ 11 := by
      rw [hf2]; linarith
    have hb3 : (add_driving_time hos dh).duty_window_hours + 1/2 ≤ 14 := by
      rw [hf3]
      push_cast at h5
      linarith
    simp only [stepAcc, hosBoundsB, Bool.and_eq_true, decide_eq_true_eq]
    norm_num
    exact ⟨hb2, hb3⟩
  · refine ⟨b, 1, p, sM, cur + seg, hos.driving_hours_in_shift + dh,
      ?_, ?_, ?_, ?_, ?_, h6, le_rfl, ?_, ?_, ?_⟩
    · rw [hgf1]
    · rw [hgf1]; norm_num
    · rw [hgf2]; linarith
    · rw [hgf1, hgf2]; linarith
    · rw [hgf3, hgf2]; push_cast; push_cast at h5; linarith
    · rw [hgf2, h8, ← hseg55]; ring
    · intro hact
      rw [hgf4] at hact
      cases hact
    · intro _
      refine ⟨⟨⌊cur / 1000⌋ + 1, by push_cast; linarith⟩, ?_, by linarith, ?_⟩
      · rw [h8, ← hseg55]
        ring
      · rw [hgf2]

theorem add_on_duty_break_since (hos : HOSState) (h : ℚ) (hh : 1/2 ≤ h) :
    (add_on_duty_time hos h true).driving_since_last_break = 0 := by
  cases hact : hos.shift_active
  · rw [add_on_duty_time_break_inactive hos h hact hh]
  · rw [add_on_duty_time_break_active hos h hact hh]

set_option maxHeartbeats 3200000 in
theorem hosInv_driveBody (name : String) (pmax : ℕ) (hpmax : pmax ≤ 1) (st : LoopState)
    (h : HosInv pmax st) : HosInv pmax (driveBody name st) := by
  obtain ⟨hinv, hg⟩ := h
  have hmtnf0 : ¬ FUEL_STOP_INTERVAL_MILES -
      fmod st.current_miles FUEL_STOP_INTERVAL_MILES ≤ 0 := by
    have := fmod_lt st.current_miles FUEL_STOP_INTERVAL_MILES
      (by norm_num [FUEL_STOP_INTERVAL_MILES])
    linarith
  simp only [driveBody]
  rw [if_neg hmtnf0]
  split_ifs with h1 h2 h3 h4 h5 h6 h7 h8 h9 h10 h11
  -- A1: rest break
  · have hneeds : (8 : ℚ) ≤ st.hos_state.driving_since_last_break := by
      unfold HOSState.needs_30_min_break BREAK_REQUIRED_AFTER_HOURS at h2
      exact of_decide_eq_true h2
    rw [add_rest_break_eq]
    exact hosstep_rest pmax st.schedule.events st.hos_state st.current_miles
      st.current_time st.current_miles hpmax hinv hg hneeds
  -- A2: window/driving reset
  · rw [add_off_duty_reset_eq]
    exact hosstep_reset pmax st.schedule.events st.hos_state st.current_miles
      st.current_time st.current_miles hinv
  -- A3: cycle reset
  · rw [add_off_duty_reset_eq]
    exact hosstep_reset pmax st.schedule.events st.hos_state st.current_miles
      st.current_time st.current_miles hinv
  -- A4: no action
  · exact ⟨hinv, hg⟩
  all_goals
    have hseg : 0 < st.miles_to_drive ⊓
        (st.hos_state.get_max_continuous_driving_hours * AVG_SPEED_MPH ⊓
          (FUEL_STOP_INTERVAL_MILES - fmod st.current_miles FUEL_STOP_INTERVAL_MILES)) :=
      lt_of_not_le h1
  all_goals
    have hcapm : st.miles_to_drive ⊓
        (st.hos_state.get_max_continuous_driving_hours * AVG_SPEED_MPH ⊓
          (FUEL_STOP_INTERVAL_MILES - fmod st.current_miles FUEL_STOP_INTERVAL_MILES)) ≤
        st.hos_state.get_max_continuous_driving_hours * AVG_SPEED_MPH :=
      le_trans (min_le_right _ _) (min_le_left _ _)
  all_goals
    have hcapf : st.miles_to_drive ⊓
        (st.hos_state.get_max_continuous_driving_hours * AVG_SPEED_MPH ⊓
          (FUEL_STOP_INTERVAL_MILES - fmod st.current_miles FUEL_STOP_INTERVAL_MILES)) ≤
        FUEL_STOP_INTERVAL_MILES - fmod st.current_miles FUEL_STOP_INTERVAL_MILES :=
      le_trans (min_le_right _ _) (min_le_right _ _)
  all_goals
    have hdrv := hosstep_drive_and_fuel pmax name st.schedule.events st.hos_state
      st.current_miles st.current_time _ hseg hcapm hcapf hpmax hinv hg
  -- B with fuel, then break: impossible (fuel stop clears the break counter)
  · exfalso
    obtain ⟨h6', -⟩ := h6
    rw [add_fuel_stop_eq] at h6'
    unfold HOSState.needs_30_min_break BREAK_REQUIRED_AFTER_HOURS at h6'
    rw [add_on_duty_break_since _ _ (by norm_num)] at h6'
    have := of_decide_eq_true h6'
    norm_num at this
  · exfalso
    obtain ⟨h6', -⟩ := h6
    rw [add_fuel_stop_eq] at h6'
    unfold HOSState.needs_30_min_break BREAK_REQUIRED_AFTER_HOURS at h6'
    rw [add_on_duty_break_since _ _ (by norm_num)] at h6'
    have := of_decide_eq_true h6'
    norm_num at this
  -- B fuel, no break, reset
  · obtain ⟨h5', -⟩ := h5
    have hfuel := hdrv.2 h5'
    rw [add_off_duty_reset_eq, add_fuel_stop_eq]
    exact hosstep_reset pmax _ _ _ _ _ hfuel.1
  -- B fuel only
  · obtain ⟨h5', -⟩ := h5
    have hfuel := hdrv.2 h5'
    rw [add_fuel_stop_eq]
    exact hfuel
  -- B no fuel, break, reset
  · obtain ⟨h9', -⟩ := h9
    unfold HOSState.needs_30_min_break BREAK_REQUIRED_AFTER_HOURS at h9'
    replace h9' := of_decide_eq_true h9'
    rw [add_off_duty_reset_eq, add_rest_break_eq]
    exact hosstep_reset pmax _ _ _ _ _
      (hosstep_rest pmax _ _ _ _ _ hpmax hdrv.1.1 hdrv.1.2 h9').1
  -- B no fuel, break only
  · obtain ⟨h9', -⟩ := h9
    unfold HOSState.needs_30_min_break BREAK_REQUIRED_AFTER_HOURS at h9'
    replace h9' := of_decide_eq_true h9'
    rw [add_rest_break_eq]
    exact hosstep_rest pmax _ _ _ _ _ hpmax hdrv.1.1 hdrv.1.2 h9'
  -- B no fuel, no break, reset
  · rw [add_off_duty_reset_eq]
    exact hosstep_reset pmax _ _ _ _ _ hdrv.1.1
  -- B advance only
  · exact hdrv.1

theorem hosInv_driveLoop (name : String) (pmax : ℕ) (hpmax : pmax ≤ 1) :
    ∀ (fuel : ℕ) (st st' : LoopState),
      driveLoop name fuel st = some st' → HosInv pmax st → HosInv pmax st' := by
  intro fuel
  induction fuel with
  | zero =>
    intro st st' hrun h
    rw [driveLoop_zero] at hrun
    split_ifs at hrun
    cases hrun
    exact h
  | succ n ih =>
    intro st st' hrun h
    rw [driveLoop_succ] at hrun
    split_ifs at hrun
    · cases hrun
      exact h
    · exact ih _ _ hrun (hosInv_driveBody name pmax hpmax st h)

theorem hosOk_create (fuel : ℕ) (l1 l2 cyc t0 : ℚ) (sched : TripSchedule)
    (h : create_trip_schedule fuel l1 l2 cyc t0 = some sched) :
    hosOk ⟨0, 0, 0⟩ sched.events = true := by
  simp only [create_trip_schedule] at h
  split at h
  · cases h
  · rename_i st₁ hEq1
    have hinit : HosInv 0
        { miles_to_drive := l1, current_miles := 0, current_time := t0,
          hos_state := start_new_shift { cycle_hours_used := cyc, shift_active := false },
          schedule := { start_time := t0 } } := by
      refine ⟨⟨rfl, rfl⟩, 0, 0, 0, 0, 0, 0, ?_⟩
      norm_num [start_new_shift]
    have h₁ := hosInv_driveLoop "Pickup" 0 (by norm_num) fuel _ st₁ hEq1 hinit
    have hp := hosstep_stop60 0 "Pickup - Loading" st₁.schedule.events st₁.hos_state
      st₁.current_miles st₁.current_time st₁.current_miles (by norm_num) h₁.1 h₁.2
    split at h
    · cases h
    · rename_i st₂ hEq2
      have h₂ := hosInv_driveLoop "Dropoff" 1 le_rfl fuel _ st₂ hEq2 (by
        rw [add_pickup_stop_eq]
        exact hp)
      have hd := hosstep_stop60 1 "Dropoff - Unloading" st₂.schedule.events st₂.hos_state
        st₂.current_miles st₂.current_time st₂.current_miles le_rfl h₂.1 h₂.2
      cases h
      rw [add_dropoff_stop_eq]
      exact hd.1.2


/-- C5: every schedule the scheduler produces respects the HOS bounds at every
event prefix: the cumulative driving time since the last reset-or-break never
exceeds 8 hours, and no shift accumulates more than 11 driving hours or
14 duty-window hours. -/
theorem c5_hos_bounds (fuel : ℕ) (l1 l2 cyc t0 : ℚ) (sched : TripSchedule)
    (h : create_trip_schedule fuel l1 l2 cyc t0 = some sched) :
    hosOk ⟨0, 0, 0⟩ sched.events = true :=
  hosOk_create fuel l1 l2 cyc t0 sched h

set_option maxRecDepth 4000 in
theorem c5_hos_bounds_witness : hosOk ⟨0, 0, 0⟩ demoSchedule.events = true :=
  c5_hos_bounds 6 55 55 0 0 demoSchedule (by with_unfolding_all rfl)

end Eld
